import Mathlib

/-!
Shallow embedding of the schema-translation and batched-copy engine of
`migrate.py` (SQLite → MySQL/MariaDB migrator), together with proofs of the
specification's claims about it.

Conventions of the embedding:
* Python strings are Lean `String`s; all string algorithms are written over
  `List Char` so that concrete instances evaluate by `decide`/`rfl`.
* Python's `print`-based warnings are modelled as a `Bool` component of the
  result (`true` iff the code path prints a warning).
* SQLite cell values reaching Python are modelled by the inductive `PyVal`
  (`None`, `int`, `str`), which is what the relevant code paths inspect.
-/

namespace KumaMigrator

/-- `startsWithList pat s` is Python's `s.startswith(pat)` on char lists. -/
def startsWithList : List Char → List Char → Bool
  | [], _ => true
  | _ :: _, [] => false
  | a :: as, b :: bs => a == b && startsWithList as bs

/-- `containsList pat s` is Python's substring test `pat in s` on char lists. -/
def containsList (pat : List Char) : List Char → Bool
  | [] => pat == []
  | c :: t => startsWithList pat (c :: t) || containsList pat t

/-- Python's `sub in s` for strings. -/
def strContains (s sub : String) : Bool := containsList sub.data s.data

/-- Python's `str.upper()` (ASCII model). -/
def pyUpper (s : String) : String := ⟨s.data.map Char.toUpper⟩

/-- Strip characters satisfying `p` from both ends of a char list
(Python's `str.strip(chars)`). -/
def dropEnds (p : Char → Bool) (cs : List Char) : List Char :=
  ((cs.dropWhile p).reverse.dropWhile p).reverse

/-- Python's `str.strip()` (whitespace from both ends). -/
def pyStrip (s : String) : String := ⟨dropEnds Char.isWhitespace s.data⟩

/-- Value of a list of decimal digit characters, most significant first. -/
def digitsVal (cs : List Char) : Nat :=
  cs.foldl (fun a c => 10 * a + (c.toNat - 48)) 0

/-- Python's `str.join` restricted to what the source uses. -/
def joinSep (sep : String) : List String → String
  | [] => ""
  | x :: xs => xs.foldl (fun a b => a ++ sep ++ b) x

/-! ## Type mapping (`INTEGER_TYPES`, `map_integer_type`, ..., `map_sqlite_to_mysql_type`) -/

/-- `INDEXED_VARCHAR_MAX` from the source. -/
def INDEXED_VARCHAR_MAX : Nat := 191

/-- `DEFAULT_VARCHAR_MAX` from the source. -/
def DEFAULT_VARCHAR_MAX : Nat := 255

/-- `map_integer_type`: the `INTEGER_TYPES` dict scan in insertion order
(TINYINT, SMALLINT, MEDIUMINT, BIGINT, INT) with substring matching. -/
def map_integer_type (u : String) : Option String :=
  if strContains u "TINYINT" then some "TINYINT"
  else if strContains u "SMALLINT" then some "SMALLINT"
  else if strContains u "MEDIUMINT" then some "MEDIUMINT"
  else if strContains u "BIGINT" then some "BIGINT UNSIGNED"
  else if strContains u "INT" then some "INT UNSIGNED"
  else none

/-- `map_numeric_type`: the `NUMERIC_TYPES` tuple scan. -/
def map_numeric_type (u : String) : Option String :=
  if strContains u "REAL" || strContains u "FLOA" || strContains u "DOUB" then some "DOUBLE"
  else if strContains u "NUM" || strContains u "DEC" then some "DECIMAL(10,2)"
  else if strContains u "BOOL" then some "TINYINT(1)"
  else none

/-- First `(digits)` group in the declaration, via `re.search(r'\((\d+)\)', raw)`. -/
def findParenLen : List Char → Option Nat
  | [] => none
  | '(' :: rest =>
    let ds := rest.takeWhile Char.isDigit
    let rest2 := rest.drop ds.length
    if !ds.isEmpty && rest2.head? == some ')' then some (digitsVal ds)
    else findParenLen rest
  | _ :: rest => findParenLen rest

/-- `map_text_type`: CHAR/CLOB/TEXT mapping; second component records whether the
index-compatibility warning is printed. -/
def map_text_type (sqlite_type_raw : String) (is_primary_key is_unique : Bool) :
    Option String × Bool :=
  let u := pyUpper sqlite_type_raw
  if !(strContains u "CHAR" || strContains u "CLOB" || strContains u "TEXT") then (none, false)
  else if is_primary_key || is_unique then
    (some ("VARCHAR(" ++ toString INDEXED_VARCHAR_MAX ++ ")"), true)
  else
    match findParenLen sqlite_type_raw.data with
    | some length => (some ("VARCHAR(" ++ toString (min length DEFAULT_VARCHAR_MAX) ++ ")"), false)
    | none => (some "LONGTEXT", false)

/-- `map_blob_type`: BLOB mapping; second component records the warning. -/
def map_blob_type (sqlite_type_raw : String) (is_primary_key is_unique : Bool) :
    Option String × Bool :=
  if !(strContains (pyUpper sqlite_type_raw) "BLOB") then (none, false)
  else if is_primary_key || is_unique then
    (some ("VARBINARY(" ++ toString INDEXED_VARCHAR_MAX ++ ")"), true)
  else (some "BLOB", false)

/-- `map_datetime_type`: DATE/DATETIME/TIME mapping. -/
def map_datetime_type (u : String) : Option String :=
  if u == "TIME" then some "TIME"
  else if strContains u "DATE" then some "DATETIME"
  else none

/-- `map_sqlite_to_mysql_type`: the prioritized mapper chain (integer, text,
blob, numeric, temporal, fallback).  Second component records whether any
warning was printed on the taken path. -/
def map_sqlite_to_mysql_type (sqlite_type_raw : String)
    (is_primary_key is_unique : Bool) : String × Bool :=
  let u := pyUpper sqlite_type_raw
  match map_integer_type u with
  | some t => (t, false)
  | none =>
    match map_text_type sqlite_type_raw is_primary_key is_unique with
    | (some t, w) => (t, w)
    | (none, _) =>
      match map_blob_type sqlite_type_raw is_primary_key is_unique with
      | (some t, w) => (t, w)
      | (none, _) =>
        match map_numeric_type u with
        | some t => (t, false)
        | none =>
          match map_datetime_type u with
          | some t => (t, false)
          | none => ("VARCHAR(255)", true)

/-! ## Correctness of the substring machinery (used to reason about `in`-tests
and about occurrences of clauses in rendered definitions) -/

theorem startsWithList_iff (pat s : List Char) :
    startsWithList pat s = true ↔ ∃ r, s = pat ++ r := by
  induction pat generalizing s with
  | nil => simp [startsWithList]
  | cons a as ih =>
    cases s with
    | nil => simp [startsWithList]
    | cons b bs =>
      simp only [startsWithList, Bool.and_eq_true, beq_iff_eq, ih]
      constructor
      · rintro ⟨rfl, r, rfl⟩; exact ⟨r, rfl⟩
      · rintro ⟨r, h⟩
        injection h with h1 h2
        exact ⟨h1.symm, r, h2⟩

theorem containsList_iff (pat s : List Char) :
    containsList pat s = true ↔ ∃ l r, s = l ++ pat ++ r := by
  induction s with
  | nil =>
    simp only [containsList, beq_iff_eq]
    constructor
    · rintro rfl; exact ⟨[], [], rfl⟩
    · rintro ⟨l, r, h⟩
      have hp : pat.length = 0 := by
        have := congrArg List.length h
        simp at this
        omega
      exact List.eq_nil_of_length_eq_zero hp
  | cons c t ih =>
    simp only [containsList, Bool.or_eq_true, startsWithList_iff, ih]
    constructor
    · rintro (⟨r, h⟩ | ⟨l, r, rfl⟩)
      · exact ⟨[], r, by simpa using h⟩
      · exact ⟨c :: l, r, rfl⟩
    · rintro ⟨l, r, h⟩
      cases l with
      | nil => exact Or.inl ⟨r, by simpa using h⟩
      | cons x xs =>
        injection h with h1 h2
        exact Or.inr ⟨xs, r, h2⟩

theorem containsList_of_append (l pat r : List Char) :
    containsList pat (l ++ pat ++ r) = true :=
  (containsList_iff _ _).mpr ⟨l, r, rfl⟩

theorem containsList_trans {p q s : List Char} (h1 : containsList p q = true)
    (h2 : containsList q s = true) : containsList p s = true := by
  obtain ⟨a, b, rfl⟩ := (containsList_iff _ _).mp h1
  obtain ⟨c, d, rfl⟩ := (containsList_iff _ _).mp h2
  exact (containsList_iff _ _).mpr ⟨c ++ a, b ++ d, by simp⟩

theorem containsList_dropWhile (p : Char → Bool) (c : Char) (cs s : List Char)
    (hc : p c = false) (h : containsList (c :: cs) s = true) :
    containsList (c :: cs) (s.dropWhile p) = true := by
  induction s with
  | nil => simp [containsList] at h
  | cons d t ih =>
    by_cases hd : p d = true
    · rw [List.dropWhile_cons_of_pos hd]
      apply ih
      rw [containsList, Bool.or_eq_true] at h
      rcases h with h | h
      · rw [startsWithList, Bool.and_eq_true, beq_iff_eq] at h
        exact absurd (h.1 ▸ hd) (by simp [hc])
      · exact h
    · rwa [List.dropWhile_cons_of_neg hd]

theorem containsList_reverse {pat s : List Char} (h : containsList pat s = true) :
    containsList pat.reverse s.reverse = true := by
  obtain ⟨l, r, rfl⟩ := (containsList_iff _ _).mp h
  exact (containsList_iff _ _).mpr ⟨r.reverse, l.reverse, by simp⟩

theorem containsList_dropEnds (p : Char → Bool) (c e : Char) (mid s : List Char)
    (hc : p c = false) (he : p e = false)
    (h : containsList (c :: (mid ++ [e])) s = true) :
    containsList (c :: (mid ++ [e])) (dropEnds p s) = true := by
  unfold dropEnds
  have h1 := containsList_dropWhile p c (mid ++ [e]) s hc h
  have h2 := containsList_reverse h1
  rw [show (c :: (mid ++ [e])).reverse = e :: (mid.reverse ++ [c]) by simp] at h2
  have h3 := containsList_dropWhile p e (mid.reverse ++ [c]) _ he h2
  have h4 := containsList_reverse h3
  simpa using h4

/-! ## Claims C3 and C4: the type mapper -/

theorem map_chain_integer {raw t : String} (pk u : Bool)
    (h : map_integer_type (pyUpper raw) = some t) :
    map_sqlite_to_mysql_type raw pk u = (t, false) := by
  simp [map_sqlite_to_mysql_type, h]

/-- C4: every declared type containing an integer-family keyword (equivalently,
the substring "INT" after upper-casing) is mapped by the integer family, with
no warning, independently of the `is_primary_key`/`is_unique` flags and before
the text/blob/numeric/temporal families are consulted; when none of the more
specific keywords TINYINT/SMALLINT/MEDIUMINT/BIGINT occur, the generic "INT"
catch-all yields "INT UNSIGNED". -/
theorem c4_integer_family_priority (raw : String) (pk u pk2 u2 : Bool)
    (hint : strContains (pyUpper raw) "INT" = true) :
    (∃ t, map_integer_type (pyUpper raw) = some t ∧
      map_sqlite_to_mysql_type raw pk u = (t, false) ∧
      map_sqlite_to_mysql_type raw pk u = map_sqlite_to_mysql_type raw pk2 u2) ∧
    (strContains (pyUpper raw) "TINYINT" = false →
     strContains (pyUpper raw) "SMALLINT" = false →
     strContains (pyUpper raw) "MEDIUMINT" = false →
     strContains (pyUpper raw) "BIGINT" = false →
     map_sqlite_to_mysql_type raw pk u = ("INT UNSIGNED", false)) := by
  have hint' : strContains (pyUpper raw) "INT" = true := hint
  constructor
  · have hsome : ∃ t, map_integer_type (pyUpper raw) = some t := by
      unfold map_integer_type
      repeat' split
      all_goals first | exact ⟨_, rfl⟩ | simp_all
    obtain ⟨t, ht⟩ := hsome
    exact ⟨t, ht, map_chain_integer pk u ht,
      (map_chain_integer pk u ht).trans (map_chain_integer pk2 u2 ht).symm⟩
  · intro h1 h2 h3 h4
    have hmap : map_integer_type (pyUpper raw) = some "INT UNSIGNED" := by
      simp [map_integer_type, h1, h2, h3, h4, hint']
    exact map_chain_integer pk u hmap

/-- Witness for C4 at the declared type "POINT" (which contains the generic
"INT" keyword but none of the specific ones). -/
theorem c4_witness :
    map_sqlite_to_mysql_type "POINT" true false = ("INT UNSIGNED", false) ∧
    map_sqlite_to_mysql_type "POINT" true false =
      map_sqlite_to_mysql_type "POINT" false true := by
  have h := c4_integer_family_priority "POINT" true false false true (by decide)
  obtain ⟨⟨t, ht, hmap, heq⟩, hgen⟩ := h
  exact ⟨hgen (by decide) (by decide) (by decide) (by decide), heq⟩

/-- C3: a declared type of the character/text family (containing CHAR, CLOB or
TEXT after upper-casing) that is primary-key or unique is mapped by
`map_text_type` to the index-safe "VARCHAR(191)" with a warning, never to
"LONGTEXT", for any declared length; 191 is a constant smaller than the
general bound 255; and whenever the integer family does not match, the full
mapper chain returns this same bounded type. -/
theorem c3_unique_text_bounded (raw : String) (pk u : Bool)
    (htext : (strContains (pyUpper raw) "CHAR" || strContains (pyUpper raw) "CLOB" ||
      strContains (pyUpper raw) "TEXT") = true)
    (hflag : (pk || u) = true) :
    map_text_type raw pk u = (some "VARCHAR(191)", true) ∧
    (some "VARCHAR(191)" : Option String) ≠ some "LONGTEXT" ∧
    INDEXED_VARCHAR_MAX < DEFAULT_VARCHAR_MAX ∧
    (map_integer_type (pyUpper raw) = none →
      map_sqlite_to_mysql_type raw pk u = ("VARCHAR(191)", true)) := by
  have hstr : ("VARCHAR(" ++ toString INDEXED_VARCHAR_MAX ++ ")" : String)
      = "VARCHAR(191)" := by decide
  have h1 : map_text_type raw pk u = (some "VARCHAR(191)", true) := by
    simp only [map_text_type]
    rw [htext, hflag]
    simp [hstr]
  refine ⟨h1, by decide, by decide, fun hz => ?_⟩
  simp [map_sqlite_to_mysql_type, hz, h1]

/-- Witness for C3 at the declared type "TEXT" with `is_unique = true`. -/
theorem c3_witness :
    map_text_type "TEXT" false true = (some "VARCHAR(191)", true) ∧
    map_sqlite_to_mysql_type "TEXT" false true = ("VARCHAR(191)", true) := by
  have h := c3_unique_text_bounded "TEXT" false true (by decide) (by decide)
  exact ⟨h.1, h.2.2.2 (by decide)⟩

/-! ## Default-value translation (`build_default_sql`) -/

/-- Replace every occurrence of `pat` by `rep`; fuel-based recursion (the fuel
is the input's length, which always suffices) so that concrete instances
reduce in the kernel. -/
def replaceListAux (pat rep : List Char) : Nat → List Char → List Char
  | 0, s => s
  | _, [] => []
  | fuel + 1, c :: rest =>
    if pat ≠ [] ∧ startsWithList pat (c :: rest) = true then
      rep ++ replaceListAux pat rep fuel (rest.drop (pat.length - 1))
    else
      c :: replaceListAux pat rep fuel rest

/-- Python's `s.replace(pat, rep)` for strings. -/
def pyReplace (s pat rep : String) : String :=
  ⟨replaceListAux pat.data rep.data s.data.length s.data⟩

/-- Python's `s.strip("'\"")`: remove every leading and trailing quote character. -/
def pyStripQuotes (s : String) : String :=
  ⟨dropEnds (fun c => c == '\'' || c == '"') s.data⟩

/-- `cleaned.replace("'", "''")`: double every embedded single quote. -/
def escapeSQ (s : String) : String :=
  ⟨s.data.foldr (fun c acc => if c == '\'' then '\'' :: '\'' :: acc else c :: acc) []⟩

/-- The normalised default string `str(default_value).upper().replace('"', "'")`. -/
def pyDefaultStr (raw : String) : String :=
  ⟨(pyUpper raw).data.map (fun c => if c == '"' then '\'' else c)⟩

/-- The current-timestamp recognition of `build_default_sql` (step 2). -/
def ctGuard (raw : String) : Bool :=
  let d := pyDefaultStr raw
  d == "CURRENT_TIMESTAMP" || d == "'CURRENT_TIMESTAMP'" ||
    strContains d "DATETIME('NOW')"

/-- The explicit-NULL recognition of `build_default_sql` (step 3). -/
def nullGuard (raw : String) : Bool :=
  let d := pyDefaultStr raw
  d == "NULL" || d == "'NULL'"

/-- Value of an unsigned decimal mantissa `digits [. digits]`, as an exact
decimal `(numerator, scale)` denoting `numerator / 10 ^ scale`. -/
def mantVal (cs : List Char) : Option (Nat × Nat) :=
  let ip := cs.takeWhile Char.isDigit
  let rest := cs.drop ip.length
  match rest with
  | [] => if ip.isEmpty then none else some (digitsVal ip, 0)
  | '.' :: fr =>
    if fr.all Char.isDigit && !(ip.isEmpty && fr.isEmpty) then
      some (digitsVal (ip ++ fr), fr.length)
    else none
  | _ => none

/-- Value of an exponent `[sign] digits`, as an integer. -/
def expVal : List Char → Option Int
  | '+' :: ds => if !ds.isEmpty && ds.all Char.isDigit then some (digitsVal ds) else none
  | '-' :: ds => if !ds.isEmpty && ds.all Char.isDigit then some (-(digitsVal ds : Int)) else none
  | ds => if !ds.isEmpty && ds.all Char.isDigit then some (digitsVal ds) else none

/-- Python's `float(s)` on the finite-decimal grammar
`[sign] (digits [. digits] | . digits) [(e|E) [sign] digits]`; `none` models a
raised `ValueError`.  The parsed value is returned as an exact decimal
`(num, scale)` denoting `num / 10 ^ scale` (the binary rounding of a Python
float is not modelled; no claim depends on it).  The special spellings
`inf`/`nan`, underscores, and surrounding whitespace are outside the grammar
used by the migrator's defaults and are modelled as failures. -/
def pyFloat (s : String) : Option (Int × Nat) :=
  let body := s.data
  let neg : Bool := match body with
    | '-' :: _ => true
    | _ => false
  let body := match body with
    | '+' :: r => r
    | '-' :: r => r
    | r => r
  let mant := body.takeWhile (fun c => c != 'e' && c != 'E')
  let rest := body.drop mant.length
  match mantVal mant with
  | none => none
  | some (m, sc) =>
    let num : Int := if neg then -(m : Int) else (m : Int)
    match rest with
    | [] => some (num, sc)
    | _ :: es =>
      match expVal es with
      | some e =>
        if 0 ≤ e then some (num * (10 : Int) ^ e.toNat, sc)
        else some (num, sc + (-e).toNat)
      | none => none

/-- The comparison `numeric_value < -128 or numeric_value > 127` of
`build_default_sql`, guarded by `"TINYINT" in mysql_type`, on the exact
decimal `num / 10 ^ scale` (integer arithmetic; see `tinyint_overflow_iff`
for the rational-number reading). -/
def tinyint_overflow (mysql_type : String) (num : Int) (scale : Nat) : Bool :=
  strContains mysql_type "TINYINT" &&
    (decide (num < -128 * (10 : Int) ^ scale) || decide (127 * (10 : Int) ^ scale < num))

/-- `build_default_sql(default_value, mysql_type, table_name, col_name)`.
Returns `(default_sql, possibly_modified_mysql_type, warned)`; the `Bool`
records whether the TINYINT-overflow warning is printed.  The default value is
an `Option String`, matching the `dflt_value` column of
`PRAGMA table_info` (a string or `NULL`). -/
def build_default_sql (default_value : Option String)
    (mysql_type table_name col_name : String) : String × String × Bool :=
  match default_value with
  | none => ("", mysql_type, false)
  | some raw =>
    if ctGuard raw then (" DEFAULT CURRENT_TIMESTAMP", mysql_type, false)
    else if nullGuard raw then (" DEFAULT NULL", mysql_type, false)
    else
      match pyFloat raw with
      | some (num, scale) =>
        if tinyint_overflow mysql_type num scale then
          (" DEFAULT " ++ raw, pyReplace mysql_type "TINYINT" "SMALLINT", true)
        else (" DEFAULT " ++ raw, mysql_type, false)
      | none =>
        (" DEFAULT '" ++ escapeSQ (pyStripQuotes raw) ++ "'", mysql_type, false)

/-- The integer test `tinyint_overflow` says exactly that the parsed numeric
value `num / 10 ^ scale`, read as a rational number, lies outside the signed
TINYINT range -128..127 (and that the target type contains TINYINT). -/
theorem tinyint_overflow_iff (t : String) (num : Int) (scale : Nat) :
    tinyint_overflow t num scale = true ↔
      strContains t "TINYINT" = true ∧
      ((num : ℚ) / 10 ^ scale < -128 ∨ 127 < (num : ℚ) / 10 ^ scale) := by
  have hpow : (0 : ℚ) < 10 ^ scale := by positivity
  have h1 : ((num : ℚ) / 10 ^ scale < -128) ↔ (num < -128 * 10 ^ scale) := by
    rw [div_lt_iff₀ hpow]
    constructor <;> intro h <;> exact_mod_cast h
  have h2 : (127 < (num : ℚ) / 10 ^ scale) ↔ (127 * 10 ^ scale < num) := by
    rw [lt_div_iff₀ hpow]
    constructor <;> intro h <;> exact_mod_cast h
  unfold tinyint_overflow
  simp only [Bool.and_eq_true, Bool.or_eq_true, decide_eq_true_eq, h1, h2]

/-! ## Claims C5, C6, C7: the default-value translator -/

/-- C7: a present default recognised as a current-timestamp alias (the
case-insensitive spellings CURRENT_TIMESTAMP and 'CURRENT_TIMESTAMP', double
quotes normalised to single quotes, and any value containing
DATETIME('NOW')) yields the clause " DEFAULT CURRENT_TIMESTAMP" with the
target type unchanged and no warning. -/
theorem c7_current_timestamp (raw mysql_type table_name col_name : String)
    (h : ctGuard raw = true) :
    build_default_sql (some raw) mysql_type table_name col_name =
      (" DEFAULT CURRENT_TIMESTAMP", mysql_type, false) := by
  simp [build_default_sql, h]

/-- Witness for C7 at the lower-case spelling "current_timestamp". -/
theorem c7_witness :
    build_default_sql (some "current_timestamp") "DATETIME" "t" "c" =
      (" DEFAULT CURRENT_TIMESTAMP", "DATETIME", false) :=
  c7_current_timestamp "current_timestamp" "DATETIME" "t" "c" (by decide)

/-- C5: a default that parses as a number (reached when the current-timestamp
and NULL recognitions do not fire, matching the translator's decision order)
is emitted literally as " DEFAULT <literal>"; the type is widened by replacing
TINYINT with SMALLINT, with a warning, exactly when the target type contains
TINYINT and the numeric value `num / 10 ^ scale` lies outside the signed
range -128..127 (as a rational number). -/
theorem c5_numeric_default (raw mysql_type table_name col_name : String)
    (num : Int) (scale : Nat)
    (hct : ctGuard raw = false) (hnull : nullGuard raw = false)
    (hq : pyFloat raw = some (num, scale)) :
    build_default_sql (some raw) mysql_type table_name col_name =
      (" DEFAULT " ++ raw,
       if tinyint_overflow mysql_type num scale then
         pyReplace mysql_type "TINYINT" "SMALLINT"
       else mysql_type,
       tinyint_overflow mysql_type num scale) ∧
    (tinyint_overflow mysql_type num scale = true ↔
      strContains mysql_type "TINYINT" = true ∧
      ((num : ℚ) / 10 ^ scale < -128 ∨ 127 < (num : ℚ) / 10 ^ scale)) := by
  refine ⟨?_, tinyint_overflow_iff mysql_type num scale⟩
  simp only [build_default_sql, hct, hnull, hq, Bool.false_eq_true, if_false]
  split <;> simp_all

/-- Witness for C5: a TINYINT column with default 200 is promoted to SMALLINT
and the rendered default stays 200. -/
theorem c5_witness :
    build_default_sql (some "200") "TINYINT" "heartbeat" "important" =
      (" DEFAULT 200", "SMALLINT", true) := by
  have h := c5_numeric_default "200" "TINYINT" "heartbeat" "important" 200 0
    (by decide) (by decide) (by decide)
  rw [h.1]
  decide

/-- C6 counterexample: the claim says exactly one layer of surrounding quotes
is stripped, but the code strips every leading and trailing quote character.
`stripOneLayer` renders the claim's words; on the default literal `''a''` the
code and the claim disagree. -/
def stripOneLayer (s : String) : String :=
  let isQ : Char → Bool := fun c => c == '\'' || c == '"'
  let cs := s.data
  let cs := match cs with
    | c :: rest => if isQ c then rest else c :: rest
    | [] => []
  let cs := match cs.reverse with
    | c :: rest => if isQ c then rest.reverse else (c :: rest).reverse
    | [] => []
  ⟨cs⟩

/-- C6 is refuted on the default literal `''a''`: the code produces
" DEFAULT 'a'" (all surrounding quotes stripped), while stripping exactly one
layer as the claim states would produce " DEFAULT '''a'''". -/
theorem c6_counterexample :
    (build_default_sql (some "''a''") "LONGTEXT" "t" "c").1 = " DEFAULT 'a'" ∧
    " DEFAULT '" ++ escapeSQ (stripOneLayer "''a''") ++ "'" = " DEFAULT '''a'''" ∧
    (" DEFAULT 'a'" : String) ≠ " DEFAULT '''a'''" := by
  refine ⟨by decide, by decide, by decide⟩

/-- C6 (amended): `build_default_sql` is total, and a present default that is
not a current-timestamp alias, not a null literal and does not parse as a
number is treated as a string literal: every leading and trailing quote
character (single or double) is stripped, embedded single quotes are doubled,
and a single-quoted DEFAULT clause is emitted with the type unchanged and no
warning. -/
theorem c6_string_default (raw mysql_type table_name col_name : String)
    (hct : ctGuard raw = false) (hnull : nullGuard raw = false)
    (hnum : pyFloat raw = none) :
    build_default_sql (some raw) mysql_type table_name col_name =
      (" DEFAULT '" ++ escapeSQ (pyStripQuotes raw) ++ "'", mysql_type, false) ∧
    ∀ d t tb c, ∃ r, build_default_sql d t tb c = r := by
  refine ⟨?_, fun d t tb c => ⟨_, rfl⟩⟩
  simp [build_default_sql, hct, hnull, hnum]

/-- Witness for C6 (amended) at the default literal `'it''s'`. -/
theorem c6_witness :
    build_default_sql (some "'one's'") "VARCHAR(255)" "t" "c" =
      (" DEFAULT 'one''s'", "VARCHAR(255)", false) := by
  have h := c6_string_default "'one's'" "VARCHAR(255)" "t" "c"
    (by decide) (by decide) (by decide)
  rw [h.1]
  decide

/-! ## Constraint resolution (`set_ai_nns`) and column processing
(`process_columns`, the pure part of `migrate_table`) -/

/-- `set_ai_nns(pk, mysql_type, not_null, col_name, table_name)`: returns
`(auto_increment, not_null_sql, warned)`, where `warned` records the
PK-nullable warning printed when the source declared the primary key
nullable. -/
def set_ai_nns (pk : Nat) (mysql_type : String) (not_null : Nat)
    (col_name table_name : String) : String × String × Bool :=
  if pk == 1 && (strContains mysql_type "INT" || strContains mysql_type "BIGINT") then
    (" AUTO_INCREMENT", " NOT NULL", not_null == 0)
  else if not_null == 1 then ("", " NOT NULL", false)
  else ("", "", false)

/-- One row of `PRAGMA table_info`: `col[1]` name, `col[2]` declared type,
`col[3]` notnull flag, `col[4]` default literal or NULL, `col[5]` pk field. -/
structure Col where
  name : String
  declType : String
  notnull : Nat
  dflt : Option String
  pk : Nat
deriving DecidableEq, Repr

/-- The pure part of `process_columns(col, table_name, col_defs, pk_col_names,
primary_keys)`: given the column's single-column-unique status (determined in
the source by the `PRAGMA index_list`/`index_info` scan, which is external
input here), returns the entries appended to `col_defs` and to
`primary_keys`. -/
def process_columns (col : Col) (is_unique_col : Bool) (table_name : String)
    (pk_col_names : List String) : List String × List String :=
  let mt := (map_sqlite_to_mysql_type col.declType
    (pk_col_names.contains col.name) is_unique_col).1
  let ai_nns := set_ai_nns col.pk mt col.notnull col.name table_name
  let auto_increment := ai_nns.1
  let not_null_sql := ai_nns.2.1
  let ds_mt := build_default_sql col.dflt mt table_name col.name
  let default_sql := ds_mt.1
  let mt2 := ds_mt.2.1
  let cdef := pyStrip ("`" ++ col.name ++ "` " ++ mt2 ++ not_null_sql ++
    default_sql ++ auto_increment)
  let defs :=
    if is_unique_col && !(pk_col_names.contains col.name) then
      [cdef, "UNIQUE (`" ++ col.name ++ "`)"]
    else [cdef]
  let pks := if col.pk == 1 then ["`" ++ col.name ++ "`"] else []
  (defs, pks)

/-- The column loop of `migrate_table`: `pk_col_names` is the set
`{col[1] for col in columns if col[5] == 1}`, and every column is processed in
declaration order, accumulating `col_defs` and `primary_keys`. -/
def build_table_defs (columns : List Col) (is_unique : String → Bool)
    (table_name : String) : List String × List String :=
  let pk_col_names := (columns.filter (fun c => c.pk == 1)).map (·.name)
  columns.foldl
    (fun acc c =>
      let step := process_columns c (is_unique c.name) table_name pk_col_names
      (acc.1 ++ step.1, acc.2 ++ step.2))
    ([], [])

/-- The CREATE TABLE statement assembled by `migrate_table` (with the
composite PRIMARY KEY clause appended when `primary_keys` is nonempty). -/
def create_stmt (table_name : String) (columns : List Col)
    (is_unique : String → Bool) : String :=
  let dp := build_table_defs columns is_unique table_name
  let col_defs :=
    if dp.2.isEmpty then dp.1
    else dp.1 ++ ["PRIMARY KEY (" ++ joinSep ", " dp.2 ++ ")"]
  "CREATE TABLE IF NOT EXISTS `" ++ table_name ++ "` (\n    " ++
    joinSep ",\n    " col_defs ++
    "\n) ENGINE=InnoDB DEFAULT CHARSET=utf8mb4 COLLATE=utf8mb4_unicode_ci;"

/-! ## Claims C1 and C2: constraint resolution and the PRIMARY KEY clause -/

theorem strContains_pyStrip_notnull (x : String) (pre suf : List Char)
    (hx : x.data = pre ++ "NOT NULL".data ++ suf) :
    strContains (pyStrip x) "NOT NULL" = true := by
  have hocc : containsList "NOT NULL".data x.data = true := by
    rw [hx]; exact containsList_of_append _ _ _
  have hpat : "NOT NULL".data = 'N' :: ("OT NUL".data ++ ['L']) := by decide
  show containsList "NOT NULL".data (dropEnds Char.isWhitespace x.data) = true
  rw [hpat] at hocc ⊢
  exact containsList_dropEnds _ _ _ _ _ (by decide) (by decide) hocc

/-- C1 counterexample, two failure modes.  First, a primary-key column whose
mapped type is not of the integer family is rendered without NOT NULL and
without a warning even when the source declared it nullable: a nullable TEXT
primary key maps to VARCHAR(191), `set_ai_nns` emits neither clause nor
warning, and the rendered definition "`token` VARCHAR(191)" does not contain
NOT NULL — refuting "regardless of the column's mapped target type".
Second, a primary-key member whose PK ordinal is 2 (second column of a
composite key) fails the `pk == 1` test of `set_ai_nns`, so even with the
integer-mapped type INT UNSIGNED and a nullable source declaration it is
rendered "`b` INT UNSIGNED" without NOT NULL and without a warning —
refuting the claim for primary-key members with ordinal other than 1. -/
theorem c1_counterexample :
    (set_ai_nns 1 "VARCHAR(191)" 0 "token" "api_key" = ("", "", false) ∧
     (process_columns ⟨"token", "TEXT", 0, none, 1⟩ false "api_key" ["token"]).1
       = ["`token` VARCHAR(191)"] ∧
     strContains "`token` VARCHAR(191)" "NOT NULL" = false) ∧
    (set_ai_nns 2 "INT UNSIGNED" 0 "b" "t" = ("", "", false) ∧
     (process_columns ⟨"b", "INTEGER", 0, none, 2⟩ false "t" ["a"]).1
       = ["`b` INT UNSIGNED"] ∧
     strContains "`b` INT UNSIGNED" "NOT NULL" = false) := by
  exact ⟨⟨by decide, by decide, by decide⟩, by decide, by decide, by decide⟩

/-- C1 (amended): for every column whose PK field equals 1 and whose mapped
target type contains an integer keyword (substring "INT", which also covers
"BIGINT"), the rendered column definition contains NOT NULL regardless of the
source nullable flag, and the PK-nullable warning is emitted exactly when the
source declaration allowed null; every other column — a non-integer mapped
type, or a primary-key member whose PK ordinal is not 1 — receives NOT NULL
only when the source declares it NOT NULL, with no warning. -/
theorem c1_pk_integer_notnull (col : Col) (u : Bool) (table_name : String)
    (pk_col_names : List String) (t2 t3 : String) (n2 p3 n3 : Nat)
    (hpk : col.pk = 1)
    (hint : strContains (map_sqlite_to_mysql_type col.declType
      (pk_col_names.contains col.name) u).1 "INT" = true) :
    set_ai_nns col.pk
        (map_sqlite_to_mysql_type col.declType (pk_col_names.contains col.name) u).1
        col.notnull col.name table_name
      = (" AUTO_INCREMENT", " NOT NULL", col.notnull == 0) ∧
    strContains ((process_columns col u table_name pk_col_names).1.headD "") "NOT NULL"
      = true ∧
    (strContains t2 "INT" = false → strContains t2 "BIGINT" = false →
      set_ai_nns 1 t2 n2 col.name table_name
        = ("", if n2 == 1 then " NOT NULL" else "", false)) ∧
    (p3 ≠ 1 →
      set_ai_nns p3 t3 n3 col.name table_name
        = ("", if n3 == 1 then " NOT NULL" else "", false)) := by
  have h1 : set_ai_nns col.pk
      (map_sqlite_to_mysql_type col.declType (pk_col_names.contains col.name) u).1
      col.notnull col.name table_name
      = (" AUTO_INCREMENT", " NOT NULL", col.notnull == 0) := by
    unfold set_ai_nns
    rw [hpk, hint]
    simp
  refine ⟨h1, ?_, ?_, ?_⟩
  · have hsp : (" NOT NULL" : String).data = ' ' :: "NOT NULL".data := by decide
    simp only [process_columns, h1]
    split
    · apply strContains_pyStrip_notnull _
        (("`" ++ col.name ++ "` " ++
          (build_default_sql col.dflt
            (map_sqlite_to_mysql_type col.declType (pk_col_names.contains col.name) u).1
            table_name col.name).2.1).data ++ [' '])
        ((build_default_sql col.dflt
            (map_sqlite_to_mysql_type col.declType (pk_col_names.contains col.name) u).1
            table_name col.name).1.data ++ " AUTO_INCREMENT".data)
      simp [String.data_append, hsp]
    · apply strContains_pyStrip_notnull _
        (("`" ++ col.name ++ "` " ++
          (build_default_sql col.dflt
            (map_sqlite_to_mysql_type col.declType (pk_col_names.contains col.name) u).1
            table_name col.name).2.1).data ++ [' '])
        ((build_default_sql col.dflt
            (map_sqlite_to_mysql_type col.declType (pk_col_names.contains col.name) u).1
            table_name col.name).1.data ++ " AUTO_INCREMENT".data)
      simp [String.data_append, hsp]
  · intro hI hB
    by_cases h : n2 == 1 <;> simp [set_ai_nns, hI, hB, h]
  · intro hp3
    have hbeq : (p3 == 1) = false := by simpa using hp3
    by_cases h : n3 == 1 <;> simp [set_ai_nns, hbeq, h]

/-- Witness for C1 (amended): the nullable integer primary key `id` renders
with NOT NULL; a non-integer mapped type gets neither clause; and a second
composite-key member (PK ordinal 2) gets neither clause even with an integer
mapped type. -/
theorem c1_witness :
    strContains
      ((process_columns ⟨"id", "INTEGER", 0, none, 1⟩ false "monitor" ["id"]).1.headD "")
      "NOT NULL" = true ∧
    set_ai_nns 1 "VARCHAR(191)" 0 "id" "monitor" = ("", "", false) ∧
    set_ai_nns 2 "INT UNSIGNED" 0 "id" "monitor" = ("", "", false) := by
  have h := c1_pk_integer_notnull ⟨"id", "INTEGER", 0, none, 1⟩ false "monitor" ["id"]
    "VARCHAR(191)" "INT UNSIGNED" 0 2 0 rfl (by decide)
  exact ⟨h.2.1, h.2.2.1 (by decide) (by decide), h.2.2.2 (by decide)⟩

/-- C2: evaluation of the code on a composite primary key.  The source
collects a column into `primary_keys` only when its pk field equals 1, so for
a table whose PK ordinals are 1 and 2 the generated statement contains
"PRIMARY KEY (`a`)" and not the composite clause "PRIMARY KEY (`a`, `b`)"
that the claim (every column with nonzero PK ordinal, in order) requires. -/
theorem c2_code_eval :
    (build_table_defs
        [⟨"a", "INTEGER", 1, none, 1⟩, ⟨"b", "INTEGER", 1, none, 2⟩]
        (fun _ => false) "t").2 = ["`a`"] ∧
    strContains
      (create_stmt "t" [⟨"a", "INTEGER", 1, none, 1⟩, ⟨"b", "INTEGER", 1, none, 2⟩]
        (fun _ => false))
      "PRIMARY KEY (`a`)" = true ∧
    strContains
      (create_stmt "t" [⟨"a", "INTEGER", 1, none, 1⟩, ⟨"b", "INTEGER", 1, none, 2⟩]
        (fun _ => false))
      "PRIMARY KEY (`a`, `b`)" = false := by
  refine ⟨by decide, by decide, by decide⟩

/-! ## Timestamp normalization for the migrations-log table
(`knex_timestamp_conversion`) -/

/-- Zero-padded two-digit rendering (`strftime`'s %m/%d/%H/%M/%S fields). -/
def two (n : Nat) : String := if n < 10 then "0" ++ toString n else toString n

/-- `datetime.fromtimestamp(ts).strftime('%Y-%m-%d %H:%M:%S')` for a
non-negative epoch-second count.  The local timezone of `fromtimestamp` is
modelled as UTC (every verified claim is timezone-independent); the
`ValueError`/`OSError` raised when the instant falls outside datetime's
supported years, caught by the source, is modelled as `none` for timestamps
at or beyond year 10000.  The civil-calendar conversion follows the standard
days-to-date algorithm. -/
def formatTs (ts : Nat) : Option String :=
  if 253402300800 ≤ ts then none
  else
    let days := ts / 86400
    let rem := ts % 86400
    let hh := rem / 3600
    let mi := rem % 3600 / 60
    let ss := rem % 60
    let z := days + 719468
    let era := z / 146097
    let doe := z % 146097
    let yoe := (doe - doe / 1460 + doe / 36524 - doe / 146096) / 365
    let y := yoe + era * 400
    let doy := doe - (365 * yoe + yoe / 4 - yoe / 100)
    let mp := (5 * doy + 2) / 153
    let d := doy - (153 * mp + 2) / 5 + 1
    let m := if mp < 10 then mp + 3 else mp - 9
    let yr := if m ≤ 2 then y + 1 else y
    some (toString yr ++ "-" ++ two m ++ "-" ++ two d ++ " " ++
      two hh ++ ":" ++ two mi ++ ":" ++ two ss)

/-- A SQLite cell value as seen by the Python row-transformation code:
`None`, an integer, or a text value. -/
inductive PyVal where
  | vNone : PyVal
  | vInt : Int → PyVal
  | vStr : String → PyVal
deriving DecidableEq, Repr

/-- Python truthiness of a cell value (`if migration_time`). -/
def pyTruthy : PyVal → Bool
  | .vNone => false
  | .vInt i => i != 0
  | .vStr s => s != ""

/-- Python's `str(...)` on a cell value. -/
def pyStr : PyVal → String
  | .vNone => "None"
  | .vInt i => toString i
  | .vStr s => s

/-- Python's `str.isdigit()` (ASCII model): nonempty and all decimal digits. -/
def pyIsDigit (s : String) : Bool := s != "" && s.data.all Char.isDigit

/-- Python's `int(...)` on a digits-only string. -/
def pyInt (s : String) : Nat := digitsVal s.data

/-- The milliseconds heuristic: a magnitude above 4000000000 ("later than
year ~2096 in seconds") is treated as milliseconds and divided by 1000. -/
def knexAdjust (timestamp_val : Nat) : Nat :=
  if 4000000000 < timestamp_val then timestamp_val / 1000 else timestamp_val

/-- The per-row body of `knex_timestamp_conversion`: convert the
`migration_time` field (index 3) when the row has at least four fields and
the field is truthy and all digits; the `Bool` records the
conversion-failure warning. -/
def convertRow (row_data : List PyVal) : List PyVal × Bool :=
  if 4 ≤ row_data.length then
    if pyTruthy (row_data.getD 3 .vNone) && pyIsDigit (pyStr (row_data.getD 3 .vNone)) then
      match formatTs (knexAdjust (pyInt (pyStr (row_data.getD 3 .vNone)))) with
      | some s => (row_data.set 3 (.vStr s), false)
      | none => (row_data.set 3 .vNone, true)
    else (row_data, false)
  else (row_data, false)

/-- `knex_timestamp_conversion(rows)`: one output row per input row, in
order. -/
def knex_timestamp_conversion (rows : List (List PyVal)) : List (List PyVal) :=
  rows.map (fun r => (convertRow r).1)

theorem row4_shape (pre : List PyVal) (x : PyVal) (post : List PyVal)
    (h : pre.length = 3) :
    (pre ++ x :: post).getD 3 .vNone = x ∧
    4 ≤ (pre ++ x :: post).length ∧
    ∀ y, (pre ++ x :: post).set 3 y = pre ++ y :: post := by
  rcases pre with _ | ⟨a, _ | ⟨b, _ | ⟨c, _ | ⟨d, t⟩⟩⟩⟩ <;> simp_all [List.getD] <;> omega

theorem convertRow_digit_eq (pre post : List PyVal) (s : String)
    (hlen : pre.length = 3) (hd : pyIsDigit s = true) :
    convertRow (pre ++ .vStr s :: post) =
      (match formatTs (knexAdjust (pyInt s)) with
       | some o => (pre ++ .vStr o :: post, false)
       | none => (pre ++ .vNone :: post, true)) := by
  obtain ⟨hget, hge, hset⟩ := row4_shape pre (.vStr s) post hlen
  have hne : (s != "") = true := by
    rw [pyIsDigit, Bool.and_eq_true] at hd
    exact hd.1
  rw [convertRow, if_pos hge, hget,
    show pyTruthy (PyVal.vStr s) = (s != "") from rfl,
    show pyStr (PyVal.vStr s) = s from rfl, hne, hd]
  cases hf : formatTs (knexAdjust (pyInt s)) with
  | none => simp [hset]
  | some o => simp [hset]

/-- C8: purely numeric migration-time fields are epoch timestamps; a
magnitude above the fixed threshold 4000000000 is divided by 1000
(milliseconds) before formatting, so a seconds value n (itself at most the
threshold) and the milliseconds value 1000*n of the same instant normalize to
the identical row; and a numeric field whose (possibly divided) value cannot
be formatted is nulled with a warning while the row itself is kept. -/
theorem c8_epoch_threshold (pre post : List PyVal) (s1 s2 sb : String) (n : Nat)
    (hlen : pre.length = 3)
    (h1 : pyIsDigit s1 = true) (h2 : pyIsDigit s2 = true)
    (hn1 : pyInt s1 = n) (hn2 : pyInt s2 = 1000 * n)
    (hlow : n ≤ 4000000000) (hhigh : 4000000000 < 1000 * n)
    (hb : pyIsDigit sb = true)
    (hbbig : 4000000000 < pyInt sb) (hbfail : 253402300800 ≤ pyInt sb / 1000) :
    knex_timestamp_conversion [pre ++ PyVal.vStr s1 :: post]
      = knex_timestamp_conversion [pre ++ PyVal.vStr s2 :: post] ∧
    convertRow (pre ++ PyVal.vStr sb :: post)
      = ((pre ++ PyVal.vStr sb :: post).set 3 PyVal.vNone, true) := by
  constructor
  · have e1 := convertRow_digit_eq pre post s1 hlen h1
    have e2 := convertRow_digit_eq pre post s2 hlen h2
    rw [hn1, show knexAdjust n = n from by rw [knexAdjust, if_neg (by omega)]] at e1
    rw [hn2, show knexAdjust (1000 * n) = n from by
      rw [knexAdjust, if_pos hhigh, Nat.mul_div_cancel_left n (by norm_num)]] at e2
    simp [knex_timestamp_conversion, e1, e2]
  · have eb := convertRow_digit_eq pre post sb hlen hb
    rw [show knexAdjust (pyInt sb) = pyInt sb / 1000 from by
      rw [knexAdjust, if_pos hbbig]] at eb
    have hfail : formatTs (pyInt sb / 1000) = none := by
      rw [formatTs, if_pos hbfail]
    rw [hfail] at eb
    rw [eb, (row4_shape pre (.vStr sb) post hlen).2.2]

/-- Witness for C8: 1700000000 (seconds) and 1700000000000 (milliseconds)
normalize to the identical 2023 date-time row, and a numeric value too large
to format is nulled with the row kept. -/
theorem c8_witness :
    knex_timestamp_conversion
        [[PyVal.vInt 7, PyVal.vStr "m.js", PyVal.vInt 1] ++ PyVal.vStr "1700000000" :: []]
      = knex_timestamp_conversion
        [[PyVal.vInt 7, PyVal.vStr "m.js", PyVal.vInt 1] ++ PyVal.vStr "1700000000000" :: []] ∧
    convertRow
        ([PyVal.vInt 7, PyVal.vStr "m.js", PyVal.vInt 1] ++ PyVal.vStr "999999999999999" :: [])
      = (([PyVal.vInt 7, PyVal.vStr "m.js", PyVal.vInt 1] ++
          PyVal.vStr "999999999999999" :: []).set 3 PyVal.vNone, true) :=
  c8_epoch_threshold [PyVal.vInt 7, PyVal.vStr "m.js", PyVal.vInt 1] []
    "1700000000" "1700000000000" "999999999999999" 1700000000
    (by decide) (by decide) (by decide) (by decide) (by decide)
    (by decide) (by decide) (by decide) (by decide) (by decide)

/-- C10: the timestamp normalizer returns one output row per input row in
order (each output row is the conversion of the corresponding input row);
every field other than index 3 is left unchanged; and a row with fewer than
four fields, or whose fourth field fails the truthy-and-all-digits test, is
returned entirely unchanged. -/
theorem c10_row_frame (rows : List (List PyVal)) (r1 r2 : List PyVal) (j i : Nat)
    (hj : j ≠ 3)
    (hr : r2.length < 4 ∨
      (pyTruthy (r2.getD 3 .vNone) && pyIsDigit (pyStr (r2.getD 3 .vNone))) = false) :
    (knex_timestamp_conversion rows).length = rows.length ∧
    (knex_timestamp_conversion rows)[i]? = (rows[i]?).map (fun r => (convertRow r).1) ∧
    ((convertRow r1).1)[j]? = r1[j]? ∧
    (convertRow r2).1 = r2 := by
  refine ⟨by simp [knex_timestamp_conversion], by simp [knex_timestamp_conversion], ?_, ?_⟩
  · by_cases h4 : 4 ≤ r1.length
    · by_cases hg : (pyTruthy (r1.getD 3 .vNone) &&
          pyIsDigit (pyStr (r1.getD 3 .vNone))) = true
      · cases hf : formatTs (knexAdjust (pyInt (pyStr (r1.getD 3 .vNone)))) with
        | none =>
          rw [convertRow, if_pos h4, hg, hf]
          simp [List.getElem?_set_ne (Ne.symm hj)]
        | some o =>
          rw [convertRow, if_pos h4, hg, hf]
          simp [List.getElem?_set_ne (Ne.symm hj)]
      · rw [convertRow, if_pos h4, if_neg hg]
    · rw [convertRow, if_neg h4]
  · rcases hr with hr | hr
    · rw [convertRow, if_neg (by omega)]
    · by_cases h4 : 4 ≤ r2.length
      · rw [convertRow, if_pos h4, hr]
        simp
      · rw [convertRow, if_neg h4]

/-- Witness for C10: a converted row keeps its other fields, a short row and a
non-numeric fourth field are returned unchanged, and output rows correspond
one-to-one to input rows. -/
theorem c10_witness :
    (knex_timestamp_conversion [[PyVal.vInt 1], [PyVal.vInt 2]]).length = 2 ∧
    (knex_timestamp_conversion [[PyVal.vInt 1], [PyVal.vInt 2]])[0]? =
      ([[PyVal.vInt 1], [PyVal.vInt 2]][0]?).map (fun r => (convertRow r).1) ∧
    ((convertRow [PyVal.vNone, PyVal.vNone, PyVal.vNone, PyVal.vStr "1700000000",
        PyVal.vStr "keep"]).1)[4]? =
      [PyVal.vNone, PyVal.vNone, PyVal.vNone, PyVal.vStr "1700000000",
        PyVal.vStr "keep"][4]? ∧
    (convertRow [PyVal.vNone, PyVal.vNone, PyVal.vNone,
        PyVal.vStr "2023-11-14 22:13:20"]).1 =
      [PyVal.vNone, PyVal.vNone, PyVal.vNone, PyVal.vStr "2023-11-14 22:13:20"] := by
  have h := c10_row_frame [[PyVal.vInt 1], [PyVal.vInt 2]]
    [PyVal.vNone, PyVal.vNone, PyVal.vNone, PyVal.vStr "1700000000", PyVal.vStr "keep"]
    [PyVal.vNone, PyVal.vNone, PyVal.vNone, PyVal.vStr "2023-11-14 22:13:20"]
    4 0 (by decide) (Or.inr (by decide))
  obtain ⟨ha, hb, hc, hd⟩ := h
  exact ⟨ha.trans rfl, hb, hc, hd⟩

/-! ## Batched row copy (`copy_rows`) -/

/-- The batch partition `rows[i:i+1000]` for `i in range(0, len(rows), 1000)`;
fuel-based recursion (`fuel = rows.length` always suffices) so that concrete
instances reduce in the kernel. -/
def toBatchesFuel : Nat → List α → List (List α)
  | 0, _ => []
  | fuel + 1, l =>
    if l.isEmpty then []
    else l.take 1000 :: toBatchesFuel fuel (l.drop 1000)

/-- The batches of the row copy, in order. -/
def toBatches (l : List α) : List (List α) := toBatchesFuel l.length l

/-- The batch loop of `copy_rows`: `bi` is the running batch index, `fails`
says whether the `executemany`/`commit` of a batch raises (external input);
returns `(successful_batches, committed rows)`.  A failing batch is rolled
back and skipped and the loop continues with the next batch. -/
def copyBatchesFuel (fails : Nat → Bool) : Nat → Nat → List α → Nat × List α
  | 0, _, _ => (0, [])
  | fuel + 1, bi, l =>
    if l.isEmpty then (0, [])
    else if fails bi then copyBatchesFuel fails fuel (bi + 1) (l.drop 1000)
    else ((copyBatchesFuel fails fuel (bi + 1) (l.drop 1000)).1 + 1,
          l.take 1000 ++ (copyBatchesFuel fails fuel (bi + 1) (l.drop 1000)).2)

/-- `(len(rows) + batch_size - 1) // batch_size`, the total batch count the
source reports. -/
def total_batches (n : Nat) : Nat := (n + 1000 - 1) / 1000

/-- The duplicate-tolerant bulk-insert statement built by `copy_rows`. -/
def insert_stmt (escaped_table_name : String) (original_col_names : List String) : String :=
  "INSERT IGNORE INTO " ++
    (escaped_table_name ++
      (" (" ++
        (joinSep "," (original_col_names.map (fun c => "`" ++ c ++ "`")) ++
          (") VALUES (" ++
            (joinSep "," (original_col_names.map (fun _ => "%s")) ++ ")")))))

/-- The outcome of `copy_rows` on a nonempty fetch: rows attempted (all of
them), successful batches, total batches reported, and the rows committed by
the successful batches. -/
def copy_rows_model (rows : List α) (fails : Nat → Bool) : Nat × Nat × Nat × List α :=
  (rows.length,
   (copyBatchesFuel fails rows.length 0 rows).1,
   total_batches rows.length,
   (copyBatchesFuel fails rows.length 0 rows).2)

theorem toBatchesFuel_len : ∀ (fuel : Nat) (l : List α), l.length ≤ fuel →
    (toBatchesFuel fuel l).length = total_batches l.length := by
  intro fuel
  induction fuel with
  | zero =>
    intro l hl
    have : l.length = 0 := by omega
    rw [toBatchesFuel, total_batches, this]
    rfl
  | succ f ih =>
    intro l hl
    rw [toBatchesFuel]
    by_cases he : l.isEmpty
    · have : l.length = 0 := by
        cases l with
        | nil => rfl
        | cons a t => simp at he
      rw [if_pos he, total_batches, this]
      rfl
    · have hpos : 1 ≤ l.length := by
        cases l with
        | nil => simp at he
        | cons a t => simp
      rw [if_neg he]
      simp only [List.length_cons]
      rw [ih (l.drop 1000) (by simp; omega), total_batches, total_batches,
        List.length_drop]
      omega

theorem toBatchesFuel_join : ∀ (fuel : Nat) (l : List α), l.length ≤ fuel →
    (toBatchesFuel fuel l).flatten = l := by
  intro fuel
  induction fuel with
  | zero =>
    intro l hl
    have : l = [] := by
      cases l with
      | nil => rfl
      | cons a t => simp at hl
    rw [this, toBatchesFuel]
    rfl
  | succ f ih =>
    intro l hl
    rw [toBatchesFuel]
    by_cases he : l.isEmpty
    · have : l = [] := by
        cases l with
        | nil => rfl
        | cons a t => simp at he
      rw [if_pos he, this]
      rfl
    · have hpos : 1 ≤ l.length := by
        cases l with
        | nil => simp at he
        | cons a t => simp
      rw [if_neg he, List.flatten_cons,
        ih (l.drop 1000) (by simp; omega), List.take_append_drop]

theorem copyBatchesFuel_ok (fails : Nat → Bool) :
    ∀ (fuel : Nat) (l : List α) (bi : Nat), l.length ≤ fuel →
    (∀ j, bi ≤ j → j < bi + (toBatchesFuel fuel l).length → fails j = false) →
    copyBatchesFuel fails fuel bi l = ((toBatchesFuel fuel l).length, l) := by
  intro fuel
  induction fuel with
  | zero =>
    intro l bi hl _
    have : l = [] := by
      cases l with
      | nil => rfl
      | cons a t => simp at hl
    rw [this, copyBatchesFuel, toBatchesFuel]
    rfl
  | succ f ih =>
    intro l bi hl hok
    by_cases he : l.isEmpty
    · have : l = [] := by
        cases l with
        | nil => rfl
        | cons a t => simp at he
      rw [this, copyBatchesFuel, toBatchesFuel]
      simp
    · have hpos : 1 ≤ l.length := by
        cases l with
        | nil => simp at he
        | cons a t => simp
      have hbat : toBatchesFuel (f + 1) l
          = l.take 1000 :: toBatchesFuel f (l.drop 1000) := by
        rw [toBatchesFuel, if_neg he]
      have hfb : fails bi = false := by
        apply hok bi (Nat.le_refl bi)
        rw [hbat]
        simp
      have hrec := ih (l.drop 1000) (bi + 1) (by simp; omega)
        (fun j h1 h2 => hok j (by omega) (by rw [hbat]; simp only [List.length_cons]; omega))
      rw [copyBatchesFuel, if_neg he, hfb]
      simp only [Bool.false_eq_true, if_false, hrec, hbat, List.length_cons,
        List.take_append_drop]

theorem copyBatchesFuel_one_fail (fails : Nat → Bool) :
    ∀ (fuel : Nat) (l : List α) (bi k : Nat), l.length ≤ fuel →
    bi ≤ k → k < bi + (toBatchesFuel fuel l).length →
    fails k = true →
    (∀ j, bi ≤ j → j < bi + (toBatchesFuel fuel l).length → j ≠ k → fails j = false) →
    copyBatchesFuel fails fuel bi l
      = ((toBatchesFuel fuel l).length - 1,
         ((toBatchesFuel fuel l).eraseIdx (k - bi)).flatten) := by
  intro fuel
  induction fuel with
  | zero =>
    intro l bi k hl hbk hkr _ _
    rw [toBatchesFuel] at hkr
    simp at hkr
    omega
  | succ f ih =>
    intro l bi k hl hbk hkr hfk hothers
    by_cases he : l.isEmpty
    · rw [toBatchesFuel, if_pos he] at hkr
      simp at hkr
      omega
    · have hpos : 1 ≤ l.length := by
        cases l with
        | nil => simp at he
        | cons a t => simp
      have hbat : toBatchesFuel (f + 1) l
          = l.take 1000 :: toBatchesFuel f (l.drop 1000) := by
        rw [toBatchesFuel, if_neg he]
      rw [hbat] at hkr hothers ⊢
      by_cases hk : k = bi
      · subst hk
        have hrec := copyBatchesFuel_ok fails f (l.drop 1000) (k + 1) (by simp; omega)
          (fun j h1 h2 => hothers j (by omega)
            (by simp only [List.length_cons]; omega) (by omega))
        rw [copyBatchesFuel, if_neg he, hfk, hrec]
        simp only [Nat.sub_self, List.eraseIdx_cons_zero, List.length_cons,
          Nat.add_sub_cancel, if_true]
        exact congrArg _ (toBatchesFuel_join f (l.drop 1000) (by simp; omega)).symm
      · have hfb : fails bi = false := by
          apply hothers bi (Nat.le_refl bi) (by simp only [List.length_cons]; omega)
          omega
        have hlt : bi + 1 ≤ k := by omega
        have hrec := ih (l.drop 1000) (bi + 1) k (by simp; omega) hlt
          (by simp only [List.length_cons] at hkr; omega) hfk
          (fun j h1 h2 hne => hothers j (by omega)
            (by simp only [List.length_cons]; omega) hne)
        rw [copyBatchesFuel, if_neg he, hfb]
        simp only [Bool.false_eq_true, if_false, hrec]
        have hcount : 1 ≤ (toBatchesFuel f (l.drop 1000)).length := by
          simp only [List.length_cons] at hkr
          omega
        have hidx : k - bi = (k - (bi + 1)) + 1 := by omega
        rw [hidx, List.eraseIdx_cons_succ, List.flatten_cons]
        have hfst : (toBatchesFuel f (l.drop 1000)).length - 1 + 1
            = (l.take 1000 :: toBatchesFuel f (l.drop 1000)).length - 1 := by
          simp only [List.length_cons]
          omega
        rw [hfst]

/-- C9: the row copy partitions the fetched rows into batches of 1000 with a
duplicate-tolerant (INSERT IGNORE) bulk insert per batch; when exactly one
batch fails, the outcome reports attempted = N rows and successful_batches =
total_batches - 1 with total_batches = ceiling(N/1000); the failing batch is
skipped and exactly the rows of all other batches are committed, in order. -/
theorem c9_batched_copy (rows : List α) (fails : Nat → Bool) (k : Nat)
    (escaped_table_name : String) (original_col_names : List String)
    (hk : k < total_batches rows.length)
    (hfk : fails k = true)
    (hothers : ∀ j, j < total_batches rows.length → j ≠ k → fails j = false) :
    copy_rows_model rows fails =
      (rows.length, total_batches rows.length - 1, total_batches rows.length,
       ((toBatches rows).eraseIdx k).flatten) ∧
    total_batches rows.length = (rows.length + 1000 - 1) / 1000 ∧
    (∃ rest, insert_stmt escaped_table_name original_col_names
      = "INSERT IGNORE INTO " ++ rest) := by
  have hlen := toBatchesFuel_len rows.length rows (Nat.le_refl _)
  have h := copyBatchesFuel_one_fail fails rows.length rows 0 k (Nat.le_refl _)
    (Nat.zero_le k) (by omega) hfk
    (fun j h1 h2 hne => hothers j (by omega) hne)
  refine ⟨?_, rfl, ⟨_, rfl⟩⟩
  rw [copy_rows_model, h, hlen]
  rw [show k - 0 = k from rfl]
  rfl

/-- Witness for C9: five rows form a single batch; when that batch's insert
fails, the outcome reports 5 rows attempted, 0 of 1 batches successful, and
no rows committed; the insert statement is duplicate-tolerant. -/
theorem c9_witness :
    copy_rows_model (List.range 5) (fun j => j == 0)
      = (5, 0, 1, ((toBatches (List.range 5)).eraseIdx 0).flatten) ∧
    (∃ rest, insert_stmt "`heartbeat`" ["id", "status"]
      = "INSERT IGNORE INTO " ++ rest) := by
  have ht : total_batches (List.range 5).length = 1 := by decide
  have h := c9_batched_copy (List.range 5) (fun j => j == 0) 0 "`heartbeat`"
    ["id", "status"] (by decide) (by decide)
    (fun j hj hne => absurd (Nat.lt_one_iff.mp (ht ▸ hj)) hne)
  obtain ⟨h1, _, h3⟩ := h
  refine ⟨?_, h3⟩
  rw [h1]
  decide

end KumaMigrator
